import Mathlib

/-!
Verification of the ellipse drawing primitive (`src/draw/primitive/ellipse.rs`).

The `Ellipse` descriptor, its setters `radius` / `resolution` / `stroke`,
the delegating property implementations, the `into_drawn` resolution
algorithm and the `Primitive` conversions are embedded from the source.
Collaborator modules that the source file uses but whose code is outside
the surveyed tree (dimension properties, polygon options, the circumference
sampler, the theme) are modelled from the specification; each such
definition is marked `Modelled from the spec:` in its doc comment.

Floating-point scalars are modelled by a `BaseFloat` class over a linear
ordered field, instantiated at the real numbers, so trigonometric identities
hold exactly where the source relies on them up to floating-point tolerance.
-/

/-- Modelled from the spec: the scalar trait contract (`math::BaseFloat`).
A geometric scalar supports ordered field arithmetic, trigonometric
functions, the constant pi, and conversion from a 64-bit float literal
(modelled as a rational, total here since the spec only converts small
literals such as `100.0`). -/
class BaseFloat (S : Type) extends LinearOrderedField S where
  cos : S → S
  sin : S → S
  pi : S
  fromF64 : ℚ → S

noncomputable instance : BaseFloat ℝ :=
  { inferInstanceAs (LinearOrderedField ℝ) with
    cos := Real.cos
    sin := Real.sin
    pi := Real.pi
    fromF64 := fun q => (q : ℝ) }

/-- Modelled from the spec: a linear RGBA color value, four components
(`ColorScalar` components are a fixed float type, modelled as rationals). -/
structure LinSrgba where
  red : ℚ
  green : ℚ
  blue : ℚ
  alpha : ℚ
deriving DecidableEq, Repr

/-- Modelled from the spec: stroke options (line-width/join/cap
configuration), reduced to the line width component. -/
structure StrokeOptions where
  lineWidth : ℚ
deriving DecidableEq, Repr

/-- Modelled from the spec: dimension properties — optional width, height
and depth, each an optional scalar (`dimension::Properties<S>`). -/
structure DimensionProperties (S : Type) where
  x : Option S
  y : Option S
  z : Option S

/-- The all-unset dimension record produced by `Default::default()`. -/
def DimensionProperties.default (S : Type) : DimensionProperties S :=
  { x := none, y := none, z := none }

/-- Modelled from the spec: the dimension scalars read at resolution time
(`dimensions.to_scalars(&draw)`); with dimensions stored as plain optional
scalars this reads the three fields. -/
def DimensionProperties.to_scalars {S : Type} (d : DimensionProperties S) :
    Option S × Option S × Option S :=
  (d.x, d.y, d.z)

/-- Modelled from the spec: the polygon descriptor (`PolygonInit` /
`PolygonOptions`) — the union of the position, orientation, color and
stroke concerns plus the fill toggle, owned by the enclosing primitive. -/
structure PolygonOptions (S : Type) where
  position : Option (S × S)
  orientation : Option S
  color : Option LinSrgba
  strokeColor : Option LinSrgba
  stroke : Option StrokeOptions
  noFill : Bool

/-- The all-unset polygon descriptor produced by `Default::default()`. -/
def PolygonOptions.default (S : Type) : PolygonOptions S :=
  { position := none, orientation := none, color := none,
    strokeColor := none, stroke := none, noFill := false }

/-- Properties related to drawing an `Ellipse`
(`struct Ellipse<S>` with fields `dimensions`, `resolution`, `polygon`). -/
structure Ellipse (S : Type) where
  dimensions : DimensionProperties S
  resolution : Option Nat
  polygon : PolygonOptions S

/-- The `Default` implementation for `Ellipse`: every field takes its own
default (all options unset). -/
def Ellipse.default (S : Type) : Ellipse S :=
  { dimensions := DimensionProperties.default S
    resolution := none
    polygon := PolygonOptions.default S }

/-- Modelled from the spec: the `SetDimensions` convenience operation
`w_h` — fully overwrites the width and height dimension values; the
`Ellipse` implementation delegates to its `dimensions` field. -/
def Ellipse.w_h {S : Type} (e : Ellipse S) (w h : S) : Ellipse S :=
  { e with dimensions := { e.dimensions with x := some w, y := some h } }

/-- Modelled from the spec: the `SetDimensions` depth operation — fully
overwrites the depth dimension value, delegated to `dimensions`. -/
def Ellipse.depth {S : Type} (e : Ellipse S) (d : S) : Ellipse S :=
  { e with dimensions := { e.dimensions with z := some d } }

/-- Specify the width and height of the `Ellipse` via a given radius:
`let side = radius * (S::one() + S::one()); self.w_h(side, side)`. -/
def Ellipse.radius {S : Type} [BaseFloat S] (e : Ellipse S) (radius : S) :
    Ellipse S :=
  let side := radius * (1 + 1)
  e.w_h side side

/-- The number of sides used to draw the ellipse:
`self.resolution = Some(resolution); self` (named `set_resolution` here
because `resolution` is the field projection). -/
def Ellipse.set_resolution {S : Type} (e : Ellipse S) (resolution : Nat) :
    Ellipse S :=
  { e with resolution := some resolution }

/-- Modelled from the spec: the `SetPosition` convenience operation —
fully overwrites the translation; the `Ellipse` implementation delegates
to its `polygon` field. -/
def Ellipse.x_y {S : Type} (e : Ellipse S) (x y : S) : Ellipse S :=
  { e with polygon := { e.polygon with position := some (x, y) } }

/-- Modelled from the spec: the `SetOrientation` convenience operation —
fully overwrites the rotation, delegated to `polygon`. -/
def Ellipse.rotate {S : Type} (e : Ellipse S) (r : S) : Ellipse S :=
  { e with polygon := { e.polygon with orientation := some r } }

/-- Modelled from the spec: the `SetColor` convenience operation — fully
overwrites the fill color, delegated to `polygon` (the color conversion
collaborator is out of scope, so the color arrives already linear). -/
def Ellipse.color {S : Type} (e : Ellipse S) (c : LinSrgba) : Ellipse S :=
  { e with polygon := { e.polygon with color := some c } }

/-- Stroke the outline with the given color: `self.stroke_color(color)`,
where `stroke_color` (modelled from the spec) fully overwrites the
polygon's stroke color. -/
def Ellipse.stroke {S : Type} (e : Ellipse S) (c : LinSrgba) : Ellipse S :=
  { e with polygon := { e.polygon with strokeColor := some c } }

/-- Modelled from the spec: a `SetStroke` operation — fully overwrites
the stroke options record, delegated to `polygon`. -/
def Ellipse.stroke_weight {S : Type} (e : Ellipse S) (w : ℚ) : Ellipse S :=
  { e with polygon := { e.polygon with stroke := some { lineWidth := w } } }

/-- The closed enumeration of primitive kinds keyed by the theme
(`theme::Primitive`); modelled from the spec's list of siblings. -/
inductive ThemePrimitive
  | Ellipse
  | Line
  | Polygon
  | Rect
  | Text
deriving DecidableEq, Repr

/-- Modelled from the spec: the theme maps each primitive kind to its
default fill color, consulted only for properties the caller left unset. -/
structure Theme where
  fill : ThemePrimitive → LinSrgba

/-- Modelled from the spec (§4.4 step 4): sample the circumference of the
ellipse inscribed in the axis-aligned `(w, h)` rectangle centered at the
origin into `resolution` evenly spaced points, angle step
`2 * pi / resolution`, starting at angle 0. -/
def circumference {S : Type} [BaseFloat S] (w h : S) (resolution : Nat) :
    List (S × S) :=
  let radStep : S := 2 * BaseFloat.pi / (resolution : S)
  (List.range resolution).map fun (i : ℕ) =>
    let rad : S := (i : S) * radStep
    (w / 2 * BaseFloat.cos rad, h / 2 * BaseFloat.sin rad)

/-- The resolved output of finalization: the scalars the resolution
algorithm settled on, the sampled boundary points, and the fill color
after theme fallback. -/
structure Drawn (S : Type) where
  width : S
  height : S
  resolution : Nat
  points : List (S × S)
  fillColor : LinSrgba

/-- The message of the fatal z-dimension assertion in `into_drawn`. -/
def zDimensionError : String :=
  "z dimension support for ellipse is unimplemented"

/-- The `into_drawn` resolution algorithm of `Ellipse`: read the dimension
scalars, fail fatally when a depth value is present, default width and
height to the scalar conversion of `100.0` and resolution to `50`, sample
the circumference, and resolve the fill color against the theme entry for
`Ellipse` (the themed polygon finalization is modelled from the spec:
an unset color falls back to the theme, a set color is used as is).
The fatal assertion is modelled as `Except.error`. -/
def Ellipse.into_drawn {S : Type} [BaseFloat S] (e : Ellipse S)
    (theme : Theme) : Except String (Drawn S) :=
  let s := e.dimensions.to_scalars
  match s.2.2 with
  | some _ => Except.error zDimensionError
  | none =>
    let w := s.1.getD (BaseFloat.fromF64 100)
    let h := s.2.1.getD (BaseFloat.fromF64 100)
    let resolution := e.resolution.getD 50
    let points := circumference w h resolution
    let fillColor := e.polygon.color.getD (theme.fill ThemePrimitive.Ellipse)
    Except.ok
      { width := w, height := h, resolution := resolution,
        points := points, fillColor := fillColor }

/-- Alias for the ellipse descriptor type, usable inside the `Primitive`
namespace where the variant name shadows it. -/
abbrev EllipseT (S : Type) := Ellipse S

/-- The `Primitive` variant enumeration; the `Ellipse` variant carries the
descriptor, the sibling variants (modelled from the spec's list) carry
nothing the claims need. -/
inductive Primitive (S : Type)
  | Ellipse (e : Ellipse S)
  | Line
  | Polygon
  | Rect
  | Text

/-- `From<Ellipse<S>> for Primitive<S>`: wrap the descriptor in the
`Ellipse` variant. -/
def Primitive.from_ellipse {S : Type} (prim : EllipseT S) : Primitive S :=
  Primitive.Ellipse prim

/-- `Into<Option<Ellipse<S>>> for Primitive<S>`: the `Ellipse` variant
yields `Some`, every other variant yields `None`. -/
def Primitive.into_ellipse {S : Type} : Primitive S → Option (EllipseT S)
  | Primitive.Ellipse prim => some prim
  | _ => none

/-- A point lies on the boundary of the ellipse inscribed in the
axis-aligned `(w, h)` rectangle centered at the origin. -/
def onEllipseBoundary (w h : ℝ) (p : ℝ × ℝ) : Prop :=
  (p.1 / (w / 2)) ^ 2 + (p.2 / (h / 2)) ^ 2 = 1

/-- A concrete theme, for witnesses: every primitive kind fills white. -/
def whiteTheme : Theme :=
  { fill := fun _ => { red := 1, green := 1, blue := 1, alpha := 1 } }

-- Helper lemmas shared by the claim theorems.

/-- Finalization with a depth value present returns the fatal error. -/
theorem into_drawn_error_of_z_some {S : Type} [BaseFloat S] (e : Ellipse S)
    (d : S) (theme : Theme) (hz : e.dimensions.z = some d) :
    e.into_drawn theme = Except.error zDimensionError := by
  simp only [Ellipse.into_drawn, DimensionProperties.to_scalars, hz]

/-- Finalization with no depth value resolves the defaults, samples the
circumference and applies the theme fallback, in one record equation. -/
theorem into_drawn_ok_of_z_none {S : Type} [BaseFloat S] (e : Ellipse S)
    (theme : Theme) (hz : e.dimensions.z = none) :
    e.into_drawn theme = Except.ok
      { width := e.dimensions.x.getD (BaseFloat.fromF64 100)
        height := e.dimensions.y.getD (BaseFloat.fromF64 100)
        resolution := e.resolution.getD 50
        points := circumference (e.dimensions.x.getD (BaseFloat.fromF64 100))
          (e.dimensions.y.getD (BaseFloat.fromF64 100)) (e.resolution.getD 50)
        fillColor := e.polygon.color.getD (theme.fill ThemePrimitive.Ellipse) } := by
  simp only [Ellipse.into_drawn, DimensionProperties.to_scalars, hz]

/-- The circumference sampler always yields exactly `resolution` points. -/
theorem circumference_length {S : Type} [BaseFloat S] (w h : S) (r : Nat) :
    (circumference w h r).length = r := by
  unfold circumference
  rw [List.length_map, List.length_range]

-- Claim theorems.

/-- Claim C1: for an Ellipse finalized with no width, no height and no
resolution set, `into_drawn` resolves width to the scalar conversion of
`100.0`, height to the scalar conversion of `100.0`, and resolution to
exactly `50`. -/
theorem ellipse_defaults_resolve {S : Type} [BaseFloat S] (e : Ellipse S)
    (theme : Theme) (hx : e.dimensions.x = none) (hy : e.dimensions.y = none)
    (hz : e.dimensions.z = none) (hr : e.resolution = none) :
    ∃ d : Drawn S, e.into_drawn theme = Except.ok d ∧
      d.width = BaseFloat.fromF64 100 ∧
      d.height = BaseFloat.fromF64 100 ∧
      d.resolution = 50 := by
  refine ⟨_, into_drawn_ok_of_z_none e theme hz, ?_, ?_, ?_⟩ <;>
    simp [hx, hy, hr]

/-- Witness for C1: the default-constructed Ellipse satisfies the
hypotheses and resolves to the default width, height and resolution. -/
theorem ellipse_defaults_resolve_witness :
    (Ellipse.default ℝ).dimensions.x = none ∧
    (Ellipse.default ℝ).dimensions.y = none ∧
    (Ellipse.default ℝ).dimensions.z = none ∧
    (Ellipse.default ℝ).resolution = none ∧
    ∃ d : Drawn ℝ, (Ellipse.default ℝ).into_drawn whiteTheme = Except.ok d ∧
      d.width = BaseFloat.fromF64 100 ∧
      d.height = BaseFloat.fromF64 100 ∧
      d.resolution = 50 :=
  ⟨rfl, rfl, rfl, rfl,
    ellipse_defaults_resolve (Ellipse.default ℝ) whiteTheme rfl rfl rfl rfl⟩

/-- Claim C3: for every Ellipse on which a nonzero depth dimension was
set, finalization returns the fatal configuration error (the error
short-circuits `into_drawn`, so no circumference sampling or tessellation
output is produced). -/
theorem ellipse_nonzero_depth_fatal {S : Type} [BaseFloat S] (e : Ellipse S)
    (d : S) (theme : Theme) (hz : e.dimensions.z = some d) (hd : d ≠ 0) :
    e.into_drawn theme = Except.error zDimensionError :=
  into_drawn_error_of_z_some e d theme hz

/-- Witness for C3: setting depth 1 on the default Ellipse makes
finalization return the fatal error. -/
theorem ellipse_nonzero_depth_fatal_witness :
    ((Ellipse.default ℝ).depth 1).dimensions.z = some 1 ∧ (1 : ℝ) ≠ 0 ∧
    ((Ellipse.default ℝ).depth 1).into_drawn whiteTheme =
      Except.error zDimensionError :=
  ⟨rfl, one_ne_zero,
    ellipse_nonzero_depth_fatal ((Ellipse.default ℝ).depth 1) 1 whiteTheme
      rfl one_ne_zero⟩

/-- Claim C10: finalization aborts with the fatal z-dimension error
whenever any depth value is present — the check is on presence of the
depth value, with no requirement that it be nonzero. -/
theorem ellipse_depth_presence_fatal {S : Type} [BaseFloat S] (e : Ellipse S)
    (d : S) (theme : Theme) (hz : e.dimensions.z = some d) :
    e.into_drawn theme = Except.error zDimensionError :=
  into_drawn_error_of_z_some e d theme hz

/-- Witness for C10: a depth of exactly zero already makes finalization
return the fatal error. -/
theorem ellipse_depth_presence_fatal_witness :
    ((Ellipse.default ℝ).depth 0).dimensions.z = some 0 ∧
    ((Ellipse.default ℝ).depth 0).into_drawn whiteTheme =
      Except.error zDimensionError :=
  ⟨rfl,
    ellipse_depth_presence_fatal ((Ellipse.default ℝ).depth 0) 0 whiteTheme rfl⟩

/-- Claim C4: for every scalar `r > 0` and every Ellipse `e`,
`e.radius r` produces the same dimension properties as `e.w_h (2*r) (2*r)`
(the two descriptors are equal outright), and the two configurations
resolve identically under every theme. -/
theorem radius_eq_w_h_twice {S : Type} [BaseFloat S] (e : Ellipse S) (r : S)
    (hr : 0 < r) :
    e.radius r = e.w_h (2 * r) (2 * r) ∧
    (e.radius r).dimensions = (e.w_h (2 * r) (2 * r)).dimensions ∧
    ∀ theme : Theme,
      (e.radius r).into_drawn theme = (e.w_h (2 * r) (2 * r)).into_drawn theme := by
  have hside : r * (1 + 1) = 2 * r := by ring
  have heq : e.radius r = e.w_h (2 * r) (2 * r) := by
    show e.w_h (r * (1 + 1)) (r * (1 + 1)) = e.w_h (2 * r) (2 * r)
    rw [hside]
  exact ⟨heq, by rw [heq], fun theme => by rw [heq]⟩

/-- Witness for C4: at radius 1 the default Ellipse equals the one sized
with `w_h 2 2`. -/
theorem radius_eq_w_h_twice_witness :
    (0 : ℝ) < 1 ∧
    ((Ellipse.default ℝ).radius 1 = (Ellipse.default ℝ).w_h (2 * 1) (2 * 1) ∧
     ((Ellipse.default ℝ).radius 1).dimensions =
       ((Ellipse.default ℝ).w_h (2 * 1) (2 * 1)).dimensions ∧
     ∀ theme : Theme,
       ((Ellipse.default ℝ).radius 1).into_drawn theme =
         ((Ellipse.default ℝ).w_h (2 * 1) (2 * 1)).into_drawn theme) :=
  ⟨one_pos, radius_eq_w_h_twice (Ellipse.default ℝ) 1 one_pos⟩

/-- Claim C5: an Ellipse finalized with no color set resolves its fill
color from the theme's entry for the Ellipse primitive kind; an Ellipse
with an explicitly set color resolves to that color under every theme,
so the theme is never consulted for its color. -/
theorem color_theme_fallback {S : Type} [BaseFloat S] (e : Ellipse S)
    (theme : Theme) (hz : e.dimensions.z = none) :
    (e.polygon.color = none →
      ∃ d : Drawn S, e.into_drawn theme = Except.ok d ∧
        d.fillColor = theme.fill ThemePrimitive.Ellipse) ∧
    (∀ c, e.polygon.color = some c → ∀ theme2 : Theme,
      ∃ d : Drawn S, e.into_drawn theme2 = Except.ok d ∧ d.fillColor = c) := by
  constructor
  · intro hc
    exact ⟨_, into_drawn_ok_of_z_none e theme hz, by simp [hc]⟩
  · intro c hc theme2
    exact ⟨_, into_drawn_ok_of_z_none e theme2 hz, by simp [hc]⟩

/-- Witness for C5: the default Ellipse (no color set) resolves its fill
color to the theme entry for Ellipse. -/
theorem color_theme_fallback_witness :
    (Ellipse.default ℝ).dimensions.z = none ∧
    (((Ellipse.default ℝ).polygon.color = none →
      ∃ d : Drawn ℝ, (Ellipse.default ℝ).into_drawn whiteTheme = Except.ok d ∧
        d.fillColor = whiteTheme.fill ThemePrimitive.Ellipse) ∧
    (∀ c, (Ellipse.default ℝ).polygon.color = some c → ∀ theme2 : Theme,
      ∃ d : Drawn ℝ, (Ellipse.default ℝ).into_drawn theme2 = Except.ok d ∧
        d.fillColor = c)) :=
  ⟨rfl, color_theme_fallback (Ellipse.default ℝ) whiteTheme rfl⟩

/-- Claim C6: for every resolution value `r` set on an Ellipse, including
`r < 3`, finalization performs no `r ≥ 3` validation and raises no error:
`r` is passed unchanged to circumference sampling, which yields a point
list of length `r` (degenerate for `r < 3` rather than rejected). -/
theorem resolution_not_validated {S : Type} [BaseFloat S] (e : Ellipse S)
    (r : Nat) (theme : Theme) (hz : e.dimensions.z = none) :
    ∃ d : Drawn S, (e.set_resolution r).into_drawn theme = Except.ok d ∧
      d.resolution = r ∧
      d.points = circumference d.width d.height r ∧
      d.points.length = r := by
  refine ⟨_, into_drawn_ok_of_z_none (e.set_resolution r) theme hz, rfl, rfl, ?_⟩
  rw [circumference_length]
  rfl

/-- Witness for C6: resolution 2 (below 3) is accepted unchanged and
sampling yields exactly 2 points. -/
theorem resolution_not_validated_witness :
    ((Ellipse.default ℝ).set_resolution 2).dimensions.z = none ∧
    ∃ d : Drawn ℝ,
      (((Ellipse.default ℝ).set_resolution 2).set_resolution 2).into_drawn
        whiteTheme = Except.ok d ∧
      d.resolution = 2 ∧
      d.points = circumference d.width d.height 2 ∧
      d.points.length = 2 :=
  ⟨rfl,
    resolution_not_validated ((Ellipse.default ℝ).set_resolution 2) 2
      whiteTheme rfl⟩

/-- Claim C7: for every pair of distinct property concerns (position,
orientation, dimensions, color, stroke), setting one concern leaves the
previously set state of every other concern unchanged. -/
theorem property_independence {S : Type} (e : Ellipse S) (px py o w h : S)
    (c sc : LinSrgba) :
    ((e.x_y px py).polygon.orientation = e.polygon.orientation ∧
     (e.x_y px py).dimensions = e.dimensions ∧
     (e.x_y px py).polygon.color = e.polygon.color ∧
     (e.x_y px py).polygon.strokeColor = e.polygon.strokeColor) ∧
    ((e.rotate o).polygon.position = e.polygon.position ∧
     (e.rotate o).dimensions = e.dimensions ∧
     (e.rotate o).polygon.color = e.polygon.color ∧
     (e.rotate o).polygon.strokeColor = e.polygon.strokeColor) ∧
    ((e.w_h w h).polygon.position = e.polygon.position ∧
     (e.w_h w h).polygon.orientation = e.polygon.orientation ∧
     (e.w_h w h).polygon.color = e.polygon.color ∧
     (e.w_h w h).polygon.strokeColor = e.polygon.strokeColor) ∧
    ((e.color c).polygon.position = e.polygon.position ∧
     (e.color c).polygon.orientation = e.polygon.orientation ∧
     (e.color c).dimensions = e.dimensions ∧
     (e.color c).polygon.strokeColor = e.polygon.strokeColor) ∧
    ((e.stroke sc).polygon.position = e.polygon.position ∧
     (e.stroke sc).polygon.orientation = e.polygon.orientation ∧
     (e.stroke sc).dimensions = e.dimensions ∧
     (e.stroke sc).polygon.color = e.polygon.color) :=
  ⟨⟨rfl, rfl, rfl, rfl⟩, ⟨rfl, rfl, rfl, rfl⟩, ⟨rfl, rfl, rfl, rfl⟩,
   ⟨rfl, rfl, rfl, rfl⟩, ⟨rfl, rfl, rfl, rfl⟩⟩

/-- Claim C8: calling a property setter twice with values `v1` then `v2`
leaves the property equal to exactly `v2` — each set fully overwrites the
previous value, for every setter of the Ellipse. -/
theorem setters_last_write_wins {S : Type} (e : Ellipse S) (v1 v2 : Nat)
    (x1 y1 x2 y2 o1 o2 w1 h1 w2 h2 : S) (c1 c2 s1 s2 : LinSrgba) :
    ((e.set_resolution v1).set_resolution v2).resolution = some v2 ∧
    ((e.x_y x1 y1).x_y x2 y2).polygon.position = some (x2, y2) ∧
    ((e.rotate o1).rotate o2).polygon.orientation = some o2 ∧
    ((e.w_h w1 h1).w_h w2 h2).dimensions.x = some w2 ∧
    ((e.w_h w1 h1).w_h w2 h2).dimensions.y = some h2 ∧
    ((e.color c1).color c2).polygon.color = some c2 ∧
    ((e.stroke s1).stroke s2).polygon.strokeColor = some s2 :=
  ⟨rfl, rfl, rfl, rfl, rfl, rfl, rfl⟩

/-- Claim C9: converting an Ellipse into a Primitive and back yields
`some` of the original Ellipse, and converting any non-Ellipse Primitive
variant yields `none`. -/
theorem primitive_conversion_roundtrip {S : Type} :
    (∀ e : Ellipse S, (Primitive.from_ellipse e).into_ellipse = some e) ∧
    (Primitive.Line : Primitive S).into_ellipse = none ∧
    (Primitive.Polygon : Primitive S).into_ellipse = none ∧
    (Primitive.Rect : Primitive S).into_ellipse = none ∧
    (Primitive.Text : Primitive S).into_ellipse = none :=
  ⟨fun _ => rfl, rfl, rfl, rfl, rfl⟩

-- Unfolding lemmas for the real-number scalar instance.

/-- The scalar cosine at the real instance is the real cosine. -/
theorem baseFloat_cos_real (x : ℝ) : BaseFloat.cos x = Real.cos x := rfl

/-- The scalar sine at the real instance is the real sine. -/
theorem baseFloat_sin_real (x : ℝ) : BaseFloat.sin x = Real.sin x := rfl

/-- The scalar pi at the real instance is the real pi. -/
theorem baseFloat_pi_real : (BaseFloat.pi : ℝ) = Real.pi := rfl

/-- The circumference sampler over the reals, written pointwise. -/
theorem circumference_real (w h : ℝ) (r : Nat) :
    circumference w h r = (List.range r).map fun (i : ℕ) =>
      (w / 2 * Real.cos ((i : ℝ) * (2 * Real.pi / (r : ℝ))),
       h / 2 * Real.sin ((i : ℝ) * (2 * Real.pi / (r : ℝ)))) := rfl

/-- Claim C2: for every width `w > 0`, height `h > 0` and resolution
`r ≥ 3`, the point sequence produced at finalization has exactly `r`
points, sampled at evenly spaced angles with step `2 * pi / r` starting
at angle 0, each point lying exactly on the boundary of the ellipse
inscribed in the axis-aligned `(w, h)` rectangle centered at the origin
(exactness over the reals subsumes the floating-point tolerance). -/
theorem circumference_samples_boundary (w h : ℝ) (r : Nat) (theme : Theme)
    (hw : 0 < w) (hh : 0 < h) (hr : 3 ≤ r) :
    ∃ d : Drawn ℝ,
      (((Ellipse.default ℝ).w_h w h).set_resolution r).into_drawn theme =
        Except.ok d ∧
      d.points.length = r ∧
      d.points = (List.range r).map (fun (i : ℕ) =>
        (w / 2 * Real.cos ((i : ℝ) * (2 * Real.pi / (r : ℝ))),
         h / 2 * Real.sin ((i : ℝ) * (2 * Real.pi / (r : ℝ))))) ∧
      ∀ p ∈ d.points, onEllipseBoundary w h p := by
  have hz : (((Ellipse.default ℝ).w_h w h).set_resolution r).dimensions.z =
      none := rfl
  have hok : (((Ellipse.default ℝ).w_h w h).set_resolution r).into_drawn theme =
      Except.ok
        { width := w, height := h, resolution := r,
          points := circumference w h r,
          fillColor := theme.fill ThemePrimitive.Ellipse } :=
    into_drawn_ok_of_z_none _ theme hz
  refine ⟨_, hok, ?_, ?_, ?_⟩
  · exact circumference_length w h r
  · exact circumference_real w h r
  · intro p hp
    rw [circumference_real w h r] at hp
    obtain ⟨i, _, rfl⟩ := List.mem_map.mp hp
    have hw2 : w / 2 ≠ 0 := by positivity
    have hh2 : h / 2 ≠ 0 := by positivity
    unfold onEllipseBoundary
    rw [mul_div_cancel_left₀ _ hw2, mul_div_cancel_left₀ _ hh2,
      Real.cos_sq_add_sin_sq]

/-- Witness for C2: a 2-by-2 ellipse at resolution 4 yields 4 evenly
spaced boundary points. -/
theorem circumference_samples_boundary_witness :
    (0 : ℝ) < 2 ∧ (0 : ℝ) < 2 ∧ 3 ≤ 4 ∧
    ∃ d : Drawn ℝ,
      (((Ellipse.default ℝ).w_h 2 2).set_resolution 4).into_drawn whiteTheme =
        Except.ok d ∧
      d.points.length = 4 ∧
      d.points = (List.range 4).map (fun (i : ℕ) =>
        ((2 : ℝ) / 2 * Real.cos ((i : ℝ) * (2 * Real.pi / ((4 : ℕ) : ℝ))),
         (2 : ℝ) / 2 * Real.sin ((i : ℝ) * (2 * Real.pi / ((4 : ℕ) : ℝ))))) ∧
      ∀ p ∈ d.points, onEllipseBoundary 2 2 p :=
  ⟨two_pos, two_pos, by decide,
    circumference_samples_boundary 2 2 4 whiteTheme two_pos two_pos
      (by decide)⟩
